import Mathlib

/-!
Shallow embedding of `fastplotlib/graphics/graphics.py` (color resolution and
the graphic variants built on it), for checking the natural-language
specification of the repository against the code.

Numpy arrays are modelled as a dtype tag, a shape, and a flat (row-major) list
of rational values.  Casting with `astype` is modelled as changing only the
dtype tag: the numeric rounding from float64 to float32 is abstracted away, as
every claim treats the cast as value-preserving by fiat.  In-place buffer
writes (`buf.data[:] = ...`) are modelled by state records carrying an `id`
token for object identity: the update functions rebuild the record with the
same `id`, mirroring that the source performs no allocation there, while a
reallocation would mint a fresh token.
-/

deriving instance DecidableEq for Except

namespace Fastplotlib

/-! ## The data model: numpy arrays and Python values -/

/-- Numpy dtypes that matter for color-resolution branching. -/
inductive DType where
  | float32
  | float64
  | int32
  | int64
  deriving DecidableEq, Repr

/-- Model of `np.issubdtype(dtype, np.integer)`. -/
def DType.isInteger : DType → Bool
  | .int32 => true
  | .int64 => true
  | _ => false

/-- A numpy array: dtype, shape, and flattened row-major data over ℚ. -/
structure NDArray where
  dtype : DType
  shape : List ℕ
  data : List ℚ
  deriving DecidableEq, Repr

instance : Inhabited NDArray := ⟨⟨.float64, [], []⟩⟩

/-- Model of `arr.ndim`: the number of axes. -/
def NDArray.ndim (a : NDArray) : ℕ := a.shape.length

/-- Model of `arr.astype(dt)`: a fresh array with the new dtype; the numeric
values are abstracted as preserved. -/
def NDArray.astype (a : NDArray) (dt : DType) : NDArray := ⟨dt, a.shape, a.data⟩

/-- A Python value that can appear as a `pre_computed` dict value. -/
inductive PyVal where
  | ndarray (a : NDArray)
  | pyint (n : ℤ)
  | pystr (s : String)
  | pylist (xs : List ℚ)
  deriving DecidableEq, Repr

/-- Model of `type(v) is np.ndarray`. -/
def PyVal.isNdarray : PyVal → Bool
  | .ndarray _ => true
  | _ => false

/-! ## Black-box collaborators from `fastplotlib.utils` (not under `src/`) -/

/-- Modelled from the spec: the colormap collaborator `get_colors` (from
`fastplotlib.utils`, which is not under `src/`).  Contract (spec section 6):
deterministic `sample_colors(count, cmap_name, alpha) -> RGBA[count]`, i.e.
`count` RGBA rows sampled along the named colormap at the given alpha; the
actual channel values are colormap-dependent and abstracted here. -/
def get_colors (n_colors : ℕ) ( _cmap : String) (alpha : ℚ) : NDArray :=
  ⟨.float32, [n_colors, 4], (List.replicate n_colors [0, 0, 0, alpha]).flatten⟩

/-- Modelled from the spec: the label-mapping collaborator
`map_labels_to_colors` (from `fastplotlib.utils`, which is not under `src/`).
Contract (spec section 6): `label_to_colors(labels, cmap_name, alpha) ->
RGBA[len(labels)]` — one RGBA row (a Python list of 4 channels) per label,
applying `alpha`; the channel values themselves are colormap-dependent and
abstracted here. -/
def map_labels_to_colors (labels : List ℚ) ( _cmap : String) (alpha : ℚ) : List (List ℚ) :=
  labels.map (fun l => [l, l, l, alpha])

/-- Model of `np.array(rows)` for a rectangular Python list of rows (as
produced by `map_labels_to_colors`): a 2-D float64 array. -/
def np_array_2d (rows : List (List ℚ)) : NDArray :=
  ⟨.float64, [rows.length, (rows.headD []).length], rows.flatten⟩

/-- Model of `arr.min()` over a 1-D array given as a list (numpy raises on an
empty array; the claims only evaluate this on nonempty edge lists, where the
0 of the empty case is never reached). -/
def np_min : List ℚ → ℚ
  | [] => 0
  | x :: xs => xs.foldl min x

/-- Model of `arr.max()`, as in `np_min`. -/
def np_max : List ℚ → ℚ
  | [] => 0
  | x :: xs => xs.foldl max x

/-- Model of `np.ptp(arr)`: peak-to-peak, `max - min`. -/
def np_ptp (l : List ℚ) : ℚ := np_max l - np_min l

/-- Modelled from the spec: the binning collaborator `np.histogram(data, bins)`
(an external library call, spec section 4.6 step 1).  Only its shape contract
matters to the claims — `len(bin_edges) = len(hist) + 1` — and no claim
depends on the returned values; a simple deterministic stand-in is used. -/
def np_histogram (data : List ℚ) (bins : ℕ) : List ℚ × List ℚ :=
  (List.replicate bins (data.length : ℚ), (List.range (bins + 1)).map (fun i => (i : ℚ)))

/-! ## `_Graphic._set_colors` (lines 25-46) -/

/-- The message of the `ValueError` raised for a malformed explicit colors array. -/
def colors_shape_msg : String :=
  "Colors array must have ndim == 2 and shape of [<n_datapoints>, 4]"

/-- The message of the dead `else: raise ValueError(...)` at the end of `_set_colors`. -/
def unknown_color_format_msg : String := "Unknown color format"

/-- Model of `_Graphic._set_colors(colors, colors_length, cmap, alpha)`,
returning the resolved `self.colors` (`none` when the method falls through
leaving the attribute as initialised in `__init__`, i.e. `None`), or the
message of the `ValueError` it raises.

The branch structure mirrors the Python `if`/`elif` chain literally:
1. `colors is None and cmap is None` — white via
   `np.vstack([[1.,1.,1.,1.]] * colors_length)`; `np.vstack` raises
   "need at least one array to concatenate" when the list is empty
   (`colors_length == 0`).
2. `colors is None and cmap is not None` — `get_colors`.
3. `colors is not None and cmap is None` — explicit RGBA, validated to be
   exactly (colors_length, 4).
4. `colors is not None and cmap is not None` — label mapping when `colors`
   is 1-D integer; the inner `if` has no `else`, so any other array simply
   falls through and `self.colors` stays `None`.
5. the trailing `else: raise ValueError("Unknown color format")`. -/
def set_colors (colors : Option NDArray) (colors_length : ℕ) (cmap : Option String)
    (alpha : ℚ) : Except String (Option NDArray) :=
  if colors = none ∧ cmap = none then
    if colors_length = 0 then
      Except.error "need at least one array to concatenate"
    else
      Except.ok (some (NDArray.astype
        ⟨.float64, [colors_length, 4], (List.replicate colors_length
          ([1, 1, 1, 1] : List ℚ)).flatten⟩ .float32))
  else if colors = none ∧ cmap ≠ none then
    Except.ok (some (get_colors colors_length (cmap.getD "") alpha))
  else if colors ≠ none ∧ cmap = none then
    if (colors.getD default).ndim = 2 ∧ (colors.getD default).shape.getD 1 0 = 4 ∧
        (colors.getD default).shape.getD 0 0 = colors_length then
      Except.ok (some ((colors.getD default).astype .float32))
    else
      Except.error colors_shape_msg
  else if colors ≠ none ∧ cmap ≠ none then
    if (colors.getD default).ndim = 1 ∧ (colors.getD default).dtype.isInteger = true then
      Except.ok (some ((np_array_2d
        (map_labels_to_colors (colors.getD default).data (cmap.getD "") alpha)).astype .float32))
    else
      Except.ok none
  else
    Except.error unknown_color_format_msg

/-! ## `Scatter` (lines 92-122)

The scatter constructor groups the 2-D position rows by their resolved color
row; positions and colors are modelled as lists of rows.  `np.unique(colors,
axis=0)` returns each distinct row exactly once (numpy yields them sorted;
the claims are invariant under the order of the groups, so first-occurrence
order via `dedup` is used).  `_process_positions` is the identity on the 2-D
inputs modelled here, since a row subset of a 2-D array stays 2-D. -/

/-- Model of `np.unique(colors, axis=0)`: the distinct rows of the resolved
colors array (order irrelevant to the claims). -/
def unique_rows (colors : List (List ℚ)) : List (List ℚ) := colors.dedup

/-- Model of `self.data[np.all(self.colors == color, axis=1)]`: the rows of
`data` whose corresponding `colors` row equals `color`. -/
def color_group (data colors : List (List ℚ)) (color : List ℚ) : List (List ℚ) :=
  ((data.zip colors).filter (fun p => decide (p.2 = color))).map Prod.fst

/-- Model of the `Scatter.__init__` grouping loop: one `pygfx.Points` object
per unique color, holding the positions of that color group. -/
def scatter_points_objects (data colors : List (List ℚ)) : List (List (List ℚ)) :=
  (unique_rows colors).map (color_group data colors)

/-- A `pygfx.Points` scene object: an identity token for the underlying
geometry buffer plus the position buffer contents. -/
structure PointsObject where
  id : ℕ
  positions : NDArray
  deriving DecidableEq, Repr

/-- The scatter state relevant to `update_data`: the `points_objects` list
built at construction. -/
structure ScatterState where
  points_objects : List PointsObject
  deriving DecidableEq, Repr

instance : Inhabited PointsObject := ⟨⟨0, default⟩⟩

/-- Model of `Scatter._process_positions`: promote a 1-D positions array to
shape (1, n) via `np.array([positions])`. -/
def process_positions (d : NDArray) : NDArray :=
  if d.ndim = 1 then ⟨d.dtype, [1, d.shape.getD 0 0], d.data⟩ else d

/-- Model of the numpy slice write `buf[:] = src` for a 2-D buffer: when the
shapes match, the contents are copied verbatim; when `src` is merely
broadcastable to the buffer shape `(m, D)` — row count `k ∈ {m, 1}` and column
count `Dp ∈ {D, 1}` — the buffer is filled with the broadcast of `src` (a
single row, for instance, is repeated into every buffer row); any other shape
raises `ValueError: could not broadcast input array ...` (the concrete shapes
numpy interpolates into the message are elided).  The buffer object keeps its
dtype and shape; the equal-shape case is split out only for convenience — it
coincides with the broadcast formula there. -/
def slice_write_2d (buf src : NDArray) : Except String NDArray :=
  if src.shape = buf.shape then
    Except.ok ⟨buf.dtype, buf.shape, src.data⟩
  else
    match buf.shape, src.shape with
    | [m, D], [k, Dp] =>
        if (k = m ∨ k = 1) ∧ (Dp = D ∨ Dp = 1) then
          Except.ok ⟨buf.dtype, buf.shape,
            ((List.range m).map (fun i => (List.range D).map (fun j =>
              src.data.getD ((if k = 1 then 0 else i) * Dp +
                (if Dp = 1 then 0 else j)) 0))).flatten⟩
        else Except.error "could not broadcast input array"
    | _, _ => Except.error "could not broadcast input array"

/-- Model of `Scatter.update_data(data)`:
`self.points_objects[0].geometry.positions.data[:] = positions` — an in-place
slice write into the buffer of the FIRST points object only (buffer identity
preserved), followed by a dirty-range mark (not modelled).  The slice write
raises `ValueError` when the processed float32 data does not broadcast to the
shape of that buffer; indexing `[0]` raises `IndexError` on an empty list. -/
def Scatter.update_data (s : ScatterState) (d : NDArray) : Except String ScatterState :=
  match s.points_objects with
  | [] => Except.error "list index out of range"
  | p :: rest =>
      match slice_write_2d p.positions ((process_positions d).astype .float32) with
      | .error e => Except.error e
      | .ok buf => Except.ok ⟨⟨p.id, buf⟩ :: rest⟩

/-! ## `Image` and `Line` updates (lines 83-86 and 141-144) -/

/-- A GPU-side buffer or texture: an identity token (object identity — only a
reallocation would mint a fresh token) plus dtype, shape and contents. -/
structure Buffer where
  id : ℕ
  dtype : DType
  shape : List ℕ
  data : List ℚ
  deriving DecidableEq, Repr

/-- The `Image` graphic state relevant to `update_data`: the texture wrapped
by its scene object. -/
structure ImageState where
  texture : Buffer
  deriving DecidableEq, Repr

/-- Model of `Image.update_data(data)`:
`self.world_object.geometry.grid.texture.data[:] = data` — full in-place
overwrite of the texture contents (same buffer object, dtype and shape kept by
the slice write), then `self._texture.update_range(...)` marks the whole
region dirty (not modelled).  No allocation happens. -/
def Image.update_data (s : ImageState) (d : NDArray) : ImageState :=
  ⟨⟨s.texture.id, s.texture.dtype, s.texture.shape, d.data⟩⟩

/-- The `Line` graphic state relevant to `update_data`: the stored `self.data`
array and the geometry positions buffer. -/
structure LineState where
  data : NDArray
  positions : Buffer
  deriving DecidableEq, Repr

/-- Model of `Line.update_data(data)`: `self.data = data.astype(np.float32)`
then `self.world_object.geometry.positions.data[:] = self.data` (in-place,
buffer identity preserved) and a full-range dirty mark (not modelled). -/
def Line.update_data (s : LineState) (d : NDArray) : LineState :=
  ⟨d.astype .float32,
    ⟨s.positions.id, s.positions.dtype, s.positions.shape, (d.astype .float32).data⟩⟩

/-! ## `Histogram.__init__` (lines 147-194) -/

/-- The message of the `ValueError` for wrong `pre_computed` keys.  (The source
message quotes the names `pre_computed`, `dict`, `hist` and `bin_edges`; the
quote marks are elided here.) -/
def precomputed_keys_msg : String :=
  "argument to `pre_computed` must be a `dict` with keys hist and bin_edges"

/-- The message of the `ValueError` for non-ndarray `pre_computed` values. -/
def precomputed_values_msg : String :=
  "argument to `pre_computed` must be a `dict` where the values are numpy.ndarray"

/-- Model of `pre_computed["hist"]` and `pre_computed["bin_edges"]` after
validation has established that the key is present with an ndarray value. -/
def dict_get_ndarray (pc : List (String × PyVal)) (k : String) : NDArray :=
  match pc.lookup k with
  | some (.ndarray a) => a
  | _ => default

/-- Model of lines 167-172 of `Histogram.__init__`: rescale the bin edges
linearly onto `[0, draw_scale_factor]` using their observed min and
peak-to-peak span. -/
def scaled_bin_edges (bin_edges : List ℚ) (draw_scale_factor : ℚ) : List ℚ :=
  bin_edges.map (fun e => ((e - np_min bin_edges) / np_ptp bin_edges) * draw_scale_factor)

/-- Model of the per-bin x centers `(scaled_bin_edges + bin_interval)[:-1]`
where `bin_interval = scaled_bin_edges[1] / 2`; the final
`.astype(np.float32)` only retags the dtype and is dropped here since the
claims are about the values. -/
def x_positions_bins (bin_edges : List ℚ) (draw_scale_factor : ℚ) : List ℚ :=
  ((scaled_bin_edges bin_edges draw_scale_factor).map
    (fun e => e + (scaled_bin_edges bin_edges draw_scale_factor).getD 1 0 / 2)).dropLast

/-- The histogram state produced by a successful construction: the derived
arrays, the resolved colors, and the number of plane meshes added to the
`pygfx.Group` (one per entry of `zip(x_positions_bins, self.hist)`). -/
structure HistogramState where
  hist : List ℚ
  bin_edges : List ℚ
  x_positions : List ℚ
  bin_width : ℚ
  colors : Option NDArray
  world_children : ℕ
  deriving DecidableEq, Repr

/-- Model of the tail of `Histogram.__init__` after `(hist, bin_edges)` are in
hand: compute the scaled centers, the bin width
`(draw_scale_factor / n_bins) * draw_bin_width_scale`, run the `_Graphic`
construction (`colors_length = n_bins`, default cmap `None` and alpha 1.0) and
build one plane mesh per bin.  (The `np.vstack([x_positions_bins, self.hist])`
bookkeeping array and its possible length-mismatch failure are not modelled;
no claim depends on the success payload of garbage-length inputs.) -/
def histogram_build (hist bin_edges : List ℚ) (colors : Option NDArray)
    (draw_scale_factor draw_bin_width_scale : ℚ) : Except String HistogramState :=
  match set_colors colors (x_positions_bins bin_edges draw_scale_factor).length none 1 with
  | .error e => Except.error e
  | .ok cs =>
      Except.ok ⟨hist, bin_edges, x_positions_bins bin_edges draw_scale_factor,
        (draw_scale_factor / ((x_positions_bins bin_edges draw_scale_factor).length : ℚ)) *
          draw_bin_width_scale,
        cs, ((x_positions_bins bin_edges draw_scale_factor).zip hist).length⟩

/-- Model of `Histogram.__init__` (lines 158-194).  The `pre_computed`
validation happens FIRST: key-set check, then value-type check, each raising
before anything else runs; only then is the drawing state computed.  A Python
dict is modelled as an association list.  Returning `Except.error` models an
exception thrown before any scene object exists (construction is atomic). -/
def histogram_init (data : Option (List ℚ)) (bins : ℕ)
    (pre_computed : Option (List (String × PyVal))) (colors : Option NDArray)
    (draw_scale_factor draw_bin_width_scale : ℚ) : Except String HistogramState :=
  match pre_computed with
  | none =>
      histogram_build (np_histogram (data.getD []) bins).1 (np_histogram (data.getD []) bins).2
        colors draw_scale_factor draw_bin_width_scale
  | some pc =>
      if (pc.map Prod.fst).toFinset = ({"hist", "bin_edges"} : Finset String) then
        if pc.all (fun kv => kv.2.isNdarray) then
          histogram_build (dict_get_ndarray pc "hist").data (dict_get_ndarray pc "bin_edges").data
            colors draw_scale_factor draw_bin_width_scale
        else Except.error precomputed_values_msg
      else Except.error precomputed_keys_msg

/-! ## Helper lemmas -/

theorem set_colors_explicit_ok (c : NDArray) (n : ℕ) (alpha : ℚ) (h : c.shape = [n, 4]) :
    set_colors (some c) n none alpha = Except.ok (some (c.astype .float32)) := by
  have hcond : ((some c : Option NDArray).getD default).ndim = 2 ∧
      ((some c : Option NDArray).getD default).shape.getD 1 0 = 4 ∧
      ((some c : Option NDArray).getD default).shape.getD 0 0 = n := by
    simp [NDArray.ndim, h, List.getD]
  unfold set_colors
  rw [if_neg (by simp), if_neg (by simp), if_pos (by simp), if_pos hcond]
  rfl

theorem set_colors_label_ok (c : NDArray) (n : ℕ) (s : String) (alpha : ℚ)
    (h1 : c.ndim = 1) (h2 : c.dtype.isInteger = true) :
    set_colors (some c) n (some s) alpha =
      Except.ok (some ((np_array_2d (map_labels_to_colors c.data s alpha)).astype .float32)) := by
  have hcond : ((some c : Option NDArray).getD default).ndim = 1 ∧
      ((some c : Option NDArray).getD default).dtype.isInteger = true := by
    simp [h1, h2]
  unfold set_colors
  rw [if_neg (by simp), if_neg (by simp), if_neg (by simp), if_pos (by simp), if_pos hcond]
  rfl

/-- Partition property of filtering by key: for a duplicate-free key list
covering the second components of `l`, the per-key filtered first components,
concatenated, are a permutation of all first components. -/
theorem filter_key_partition {P C : Type} [DecidableEq C] :
    ∀ (ks : List C) (l : List (P × C)), ks.Nodup → (∀ p ∈ l, p.2 ∈ ks) →
      ((ks.map (fun c => (l.filter (fun p => decide (p.2 = c))).map Prod.fst)).flatten).Perm
        (l.map Prod.fst) := by
  intro ks
  induction ks with
  | nil =>
      intro l _ hmem
      cases l with
      | nil => simp
      | cons p l2 => exact absurd (hmem p (by simp)) (by simp)
  | cons k ks ih =>
      intro l hnd hmem
      have hk : k ∉ ks := (List.nodup_cons.mp hnd).1
      have hnd2 : ks.Nodup := (List.nodup_cons.mp hnd).2
      simp only [List.map_cons, List.flatten_cons]
      have hsub : ∀ c ∈ ks, l.filter (fun p => decide (p.2 = c)) =
          (l.filter (fun p => !decide (p.2 = k))).filter (fun p => decide (p.2 = c)) := by
        intro c hc
        have hck : c ≠ k := fun he => hk (he ▸ hc)
        rw [List.filter_filter]
        apply List.filter_congr
        intro p hp
        rcases eq_or_ne p.2 c with h | h
        · have hpk : p.2 ≠ k := fun he => hck (h.symm.trans he)
          simp [h, hpk, hck]
        · simp [h]
      have hmap : ks.map (fun c => (l.filter (fun p => decide (p.2 = c))).map Prod.fst) =
          ks.map (fun c => ((l.filter (fun p => !decide (p.2 = k))).filter
            (fun p => decide (p.2 = c))).map Prod.fst) := by
        apply List.map_congr_left
        intro c hc
        rw [hsub c hc]
      rw [hmap]
      have hmem2 : ∀ p ∈ l.filter (fun p => !decide (p.2 = k)), p.2 ∈ ks := by
        intro p hp
        have hpl := List.mem_of_mem_filter hp
        have hpk := List.of_mem_filter hp
        simp only [Bool.not_eq_eq_eq_not, Bool.not_true, decide_eq_false_iff_not] at hpk
        rcases List.mem_cons.mp (hmem p hpl) with h | h
        · exact absurd h hpk
        · exact h
      have hrest := ih (l.filter (fun p => !decide (p.2 = k))) hnd2 hmem2
      have happ := hrest.append_left ((l.filter (fun p => decide (p.2 = k))).map Prod.fst)
      refine happ.trans ?_
      rw [← List.map_append]
      exact (List.filter_append_perm _ l).map Prod.fst

theorem foldl_min_le_init (xs : List ℚ) (a : ℚ) : xs.foldl min a ≤ a := by
  induction xs generalizing a with
  | nil => exact le_refl a
  | cons y ys ih => exact le_trans (ih (min a y)) (min_le_left a y)

theorem le_foldl_max_init (xs : List ℚ) (a : ℚ) : a ≤ xs.foldl max a := by
  induction xs generalizing a with
  | nil => exact le_refl a
  | cons y ys ih => exact le_trans (le_max_left a y) (ih (max a y))

theorem le_foldl_max_of_mem (xs : List ℚ) (a x : ℚ) (hx : x ∈ xs) : x ≤ xs.foldl max a := by
  induction xs generalizing a with
  | nil => simp at hx
  | cons y ys ih =>
      rcases List.mem_cons.mp hx with rfl | hx2
      · exact le_trans (le_max_right a x) (le_foldl_max_init ys (max a x))
      · exact ih (max a y) hx2

/-! ## Claim theorems -/

/-- C2 (evidence of the code bug): at the failing input — a float RGBA colors
array supplied together with a cmap — `_set_colors` does NOT raise the
"unknown color format" error the spec requires: the fourth `elif` catches the
combination, its inner `if` (1-D integer array) fails, and the method returns
normally leaving `self.colors = None`.  The trailing
`else: raise ValueError("Unknown color format")` is dead code. -/
theorem float_colors_with_cmap_not_rejected :
    set_colors (some ⟨.float32, [1, 4], [1/2, 1/2, 1/2, 1]⟩) 1 (some "plasma") 1 =
      Except.ok none := by decide

/-- C5: an explicit colors array supplied without a cmap whose shape is not
exactly `(count, 4)` — in particular whenever `colors.shape[0] != count` — is
always rejected with the `ValueError` naming the expected shape; it is never
silently accepted or truncated. -/
theorem explicit_colors_bad_shape_rejected (c : NDArray) (n : ℕ) (alpha : ℚ)
    (h : c.shape ≠ [n, 4]) :
    set_colors (some c) n none alpha = Except.error colors_shape_msg := by
  have hq : ¬(((some c : Option NDArray).getD default).ndim = 2 ∧
      ((some c : Option NDArray).getD default).shape.getD 1 0 = 4 ∧
      ((some c : Option NDArray).getD default).shape.getD 0 0 = n) := by
    simp only [Option.getD_some]
    rintro ⟨h4, h5, h6⟩
    apply h
    rcases c with ⟨dt, sh, da⟩
    simp only [NDArray.ndim, List.length_eq_two] at h4
    obtain ⟨a, b, rfl⟩ := h4
    simp_all [List.getD]
  unfold set_colors
  rw [if_neg (by simp), if_neg (by simp), if_pos (by simp), if_neg hq]

/-- Witness for C5 at a concrete input: a (2, 4) array with `count = 3`. -/
theorem explicit_colors_bad_shape_rejected_witness :
    (⟨.float64, [2, 4], [0, 0, 0, 0, 0, 0, 0, 0]⟩ : NDArray).shape ≠ [3, 4] ∧
    set_colors (some ⟨.float64, [2, 4], [0, 0, 0, 0, 0, 0, 0, 0]⟩) 3 none 1 =
      Except.error colors_shape_msg :=
  ⟨by decide, explicit_colors_bad_shape_rejected ⟨.float64, [2, 4], [0, 0, 0, 0, 0, 0, 0, 0]⟩ 3 1
    (by decide)⟩

/-- C6: an (N, 4) explicit colors array resolved with `count = N` and no cmap
passes through with its values and shape unchanged; the only change is the
cast to float32.  (In the source `astype` returns a fresh array, so the input
array itself is never mutated — there is no in-place write in this branch.) -/
theorem explicit_rgba_passthrough (c : NDArray) (n : ℕ) (alpha : ℚ)
    (h : c.shape = [n, 4]) :
    set_colors (some c) n none alpha = Except.ok (some ⟨.float32, c.shape, c.data⟩) := by
  rw [set_colors_explicit_ok c n alpha h]
  rfl

/-- Witness for C6 at a concrete (2, 4) array. -/
theorem explicit_rgba_passthrough_witness :
    (⟨.float64, [2, 4], [1, 0, 0, 1, 0, 1, 0, 1]⟩ : NDArray).shape = [2, 4] ∧
    set_colors (some ⟨.float64, [2, 4], [1, 0, 0, 1, 0, 1, 0, 1]⟩) 2 none 1 =
      Except.ok (some ⟨.float32, [2, 4], [1, 0, 0, 1, 0, 1, 0, 1]⟩) :=
  ⟨by decide, explicit_rgba_passthrough ⟨.float64, [2, 4], [1, 0, 0, 1, 0, 1, 0, 1]⟩ 2 1 rfl⟩

/-- C10: whenever `colors` is a non-None array that is not 1-D integer and
`cmap` is also present, `_set_colors` completes without raising and leaves
`self.colors` as the `None` it was initialised to in `__init__`; moreover the
final `else: raise ValueError("Unknown color format")` branch is unreachable
for ALL inputs, since the four `if`/`elif` guards exhaust every combination of
`colors is None` and `cmap is None`. -/
theorem fallthrough_leaves_none_and_unknown_format_unreachable
    (c : NDArray) (n : ℕ) (cm : String) (alpha : ℚ)
    (h : ¬(c.ndim = 1 ∧ c.dtype.isInteger = true)) :
    set_colors (some c) n (some cm) alpha = Except.ok none ∧
    ∀ (colors : Option NDArray) (cmap : Option String),
      set_colors colors n cmap alpha ≠ Except.error unknown_color_format_msg := by
  constructor
  · unfold set_colors
    split_ifs with h1 h2 h3 h4 <;> simp_all
  · intro colors cmap
    unfold set_colors
    split_ifs <;> (try exact fun hab => Except.noConfusion hab) <;> (try decide)
    simp_all

/-- Witness for C10: a float RGBA array plus a cmap resolves to `None` colors
without an error. -/
theorem fallthrough_leaves_none_witness :
    ¬((⟨.float32, [2, 4], [0, 0, 0, 1, 1, 1, 1, 1]⟩ : NDArray).ndim = 1 ∧
      (⟨.float32, [2, 4], [0, 0, 0, 1, 1, 1, 1, 1]⟩ : NDArray).dtype.isInteger = true) ∧
    set_colors (some ⟨.float32, [2, 4], [0, 0, 0, 1, 1, 1, 1, 1]⟩) 2 (some "viridis") 1 =
      Except.ok none :=
  ⟨by decide, (fallthrough_leaves_none_and_unknown_format_unreachable
    ⟨.float32, [2, 4], [0, 0, 0, 1, 1, 1, 1, 1]⟩ 2 "viridis" 1 (by decide)).1⟩

/-- C1 (counterexample to the claim as stated): in the label-mapping case the
resolver accepts a 1-D integer labels array whose length differs from `count`
and returns an array of shape `(len(labels), 4)`, not `(count, 4)`: here one
label with `count = 2` yields shape `(1, 4)`. -/
theorem resolved_shape_label_counterexample :
    set_colors (some ⟨.int64, [1], [0]⟩) 2 (some "plasma") 1 =
      Except.ok (some ⟨.float32, [1, 4], [0, 0, 0, 1]⟩) ∧
    (⟨.float32, [1, 4], [0, 0, 0, 1]⟩ : NDArray).shape ≠ [2, 4] := by decide

/-- C1 (amended): for every valid ColorSpec input accepted by the resolver
with `count ≥ 1` — colors absent (with or without a cmap), an explicit
(count, 4) RGBA array without a cmap, or a 1-D integer labels array with a
cmap carrying one label per datapoint (`len(labels) = count`) — the resolved
colors array has shape `(count, 4)` and dtype float32. -/
theorem resolved_colors_shape_dtype (colors : Option NDArray) (n : ℕ)
    (cmap : Option String) (alpha : ℚ) (hn : 0 < n)
    (hvalid : colors = none ∨
      (∃ c, colors = some c ∧ cmap = none ∧ c.shape = [n, 4]) ∨
      (∃ c s, colors = some c ∧ cmap = some s ∧ c.ndim = 1 ∧ c.dtype.isInteger = true ∧
        c.data.length = n)) :
    ∃ r, set_colors colors n cmap alpha = Except.ok (some r) ∧
      r.shape = [n, 4] ∧ r.dtype = DType.float32 := by
  rcases hvalid with rfl | ⟨c, rfl, rfl, hs⟩ | ⟨c, s, rfl, rfl, h1, h2, h3⟩
  · cases cmap with
    | none =>
        have heq : set_colors none n none alpha = Except.ok (some (NDArray.astype
            ⟨.float64, [n, 4], (List.replicate n ([1, 1, 1, 1] : List ℚ)).flatten⟩
            .float32)) := by
          unfold set_colors
          rw [if_pos (by simp), if_neg (by omega)]
        exact ⟨_, heq, rfl, rfl⟩
    | some s =>
        have heq : set_colors none n (some s) alpha =
            Except.ok (some (get_colors n ((some s).getD "") alpha)) := by
          unfold set_colors
          rw [if_neg (by simp), if_pos (by simp)]
        exact ⟨_, heq, rfl, rfl⟩
  · exact ⟨_, set_colors_explicit_ok c n alpha hs, by simp [NDArray.astype, hs], rfl⟩
  · refine ⟨_, set_colors_label_ok c n s alpha h1 h2, ?_, rfl⟩
    rcases hd : c.data with _ | ⟨l, ls⟩
    · rw [hd] at h3
      simp only [List.length_nil] at h3
      omega
    · rw [hd] at h3
      simp [np_array_2d, NDArray.astype, map_labels_to_colors, hd, ← h3]

/-- Witness for C1 (amended) in the label-mapping case: two labels with
`count = 2` resolve to a (2, 4) float32 array. -/
theorem resolved_colors_shape_dtype_witness :
    (0 : ℕ) < 2 ∧ ∃ r, set_colors (some ⟨.int64, [2], [0, 1]⟩) 2 (some "plasma") 1 =
      Except.ok (some r) ∧ r.shape = [2, 4] ∧ r.dtype = DType.float32 :=
  ⟨by decide, resolved_colors_shape_dtype (some ⟨.int64, [2], [0, 1]⟩) 2 (some "plasma") 1
    (by decide)
    (Or.inr (Or.inr ⟨⟨.int64, [2], [0, 1]⟩, "plasma", rfl, rfl, by decide, by decide,
      by decide⟩))⟩

/-- C3: the number of scatter sub-objects equals the number of distinct rows
of the resolved colors array, and concatenating the positions of all
sub-objects reproduces the original position rows exactly as a multiset (the
hypothesis matches construction, where one color row is resolved per data
row). -/
theorem scatter_grouping_invariant (data colors : List (List ℚ))
    (h : data.length = colors.length) :
    (scatter_points_objects data colors).length = colors.toFinset.card ∧
    ((scatter_points_objects data colors).flatten).Perm data := by
  constructor
  · simp [scatter_points_objects, unique_rows, List.card_toFinset]
  · unfold scatter_points_objects color_group unique_rows
    have hperm := filter_key_partition colors.dedup (data.zip colors) colors.nodup_dedup
      (fun p hp => by simpa [List.mem_dedup] using (List.of_mem_zip hp).2)
    rw [List.map_fst_zip data colors (le_of_eq h)] at hperm
    exact hperm

/-- Witness for C3: the scenario from the spec — three points, two red and one
green, give two sub-objects whose positions are a permutation of the input. -/
theorem scatter_grouping_invariant_witness :
    ([[0, 0], [1, 1], [2, 2]] : List (List ℚ)).length =
      ([[1, 0, 0, 1], [1, 0, 0, 1], [0, 1, 0, 1]] : List (List ℚ)).length ∧
    ((scatter_points_objects [[0, 0], [1, 1], [2, 2]]
        [[1, 0, 0, 1], [1, 0, 0, 1], [0, 1, 0, 1]]).length =
      ([[1, 0, 0, 1], [1, 0, 0, 1], [0, 1, 0, 1]] : List (List ℚ)).toFinset.card ∧
    ((scatter_points_objects [[0, 0], [1, 1], [2, 2]]
        [[1, 0, 0, 1], [1, 0, 0, 1], [0, 1, 0, 1]]).flatten).Perm
      [[0, 0], [1, 1], [2, 2]]) :=
  ⟨by decide, scatter_grouping_invariant [[0, 0], [1, 1], [2, 2]]
    [[1, 0, 0, 1], [1, 0, 0, 1], [0, 1, 0, 1]] (by decide)⟩

/-- C4 (counterexample to the claim as stated): a scatter with two
single-point color groups updated with the full 2-row data array — exactly a
full-data update on a multi-group scatter.  The first group holds a (1, 2)
buffer, the processed data has shape (2, 2), which does not broadcast into
(1, 2), so the slice write raises `ValueError` and NO buffer is replaced. -/
theorem scatter_update_shape_mismatch_counterexample :
    1 < (ScatterState.mk [⟨10, ⟨.float32, [1, 2], [0, 0]⟩⟩,
        ⟨11, ⟨.float32, [1, 2], [5, 5]⟩⟩]).points_objects.length ∧
    Scatter.update_data ⟨[⟨10, ⟨.float32, [1, 2], [0, 0]⟩⟩, ⟨11, ⟨.float32, [1, 2], [5, 5]⟩⟩]⟩
      ⟨.float64, [2, 2], [1, 2, 3, 4]⟩ = Except.error "could not broadcast input array" := by
  decide

/-- C4 (amended): on a scatter with more than one color group, `update_data`
called with data whose processed float32 form has the shape of the buffer of
the first color group succeeds and replaces the position buffer of ONLY the
first sub-object (with the processed float32 data); every other sub-object is
unchanged, and the number and identity of the sub-objects are preserved.
(Data that does not broadcast to that buffer shape — in particular any
full-data update on a multi-group scatter — makes the slice write raise
`ValueError` instead, replacing nothing.) -/
theorem scatter_update_first_only (s : ScatterState) (d : NDArray)
    (h : 1 < s.points_objects.length)
    (hsh : ((process_positions d).astype .float32).shape =
      (s.points_objects.headD default).positions.shape) :
    ∃ s2, Scatter.update_data s d = Except.ok s2 ∧
      s2.points_objects.length = s.points_objects.length ∧
      s2.points_objects.map PointsObject.id = s.points_objects.map PointsObject.id ∧
      (∀ i, i ≠ 0 → s2.points_objects[i]? = s.points_objects[i]?) ∧
      (s2.points_objects[0]?).map (fun p => p.positions.data) =
        some ((process_positions d).astype .float32).data := by
  rcases s with ⟨objs⟩
  cases objs with
  | nil => simp at h
  | cons p rest =>
      simp only [List.headD_cons] at hsh
      have hsw : slice_write_2d p.positions ((process_positions d).astype .float32) =
          Except.ok ⟨p.positions.dtype, p.positions.shape,
            ((process_positions d).astype .float32).data⟩ := by
        unfold slice_write_2d
        rw [if_pos hsh]
      refine ⟨⟨⟨p.id, ⟨p.positions.dtype, p.positions.shape,
          ((process_positions d).astype .float32).data⟩⟩ :: rest⟩, ?_, by simp, by simp, ?_,
        by simp⟩
      · show Scatter.update_data ⟨p :: rest⟩ d = _
        simp only [Scatter.update_data]
        rw [hsw]
      · intro i hi
        cases i with
        | zero => exact absurd rfl hi
        | succ j => simp

/-- Witness for C4 (amended): a two-group scatter updated with a (1, 2) array
matching the shape of the first buffer. -/
theorem scatter_update_first_only_witness :
    (1 < (ScatterState.mk [⟨10, ⟨.float32, [1, 2], [0, 0]⟩⟩,
        ⟨11, ⟨.float32, [1, 2], [5, 5]⟩⟩]).points_objects.length ∧
      ((process_positions ⟨.float64, [1, 2], [7, 8]⟩).astype .float32).shape =
        ((ScatterState.mk [⟨10, ⟨.float32, [1, 2], [0, 0]⟩⟩,
          ⟨11, ⟨.float32, [1, 2], [5, 5]⟩⟩]).points_objects.headD
            default).positions.shape) ∧
    ∃ s2, Scatter.update_data
        ⟨[⟨10, ⟨.float32, [1, 2], [0, 0]⟩⟩, ⟨11, ⟨.float32, [1, 2], [5, 5]⟩⟩]⟩
        ⟨.float64, [1, 2], [7, 8]⟩ = Except.ok s2 ∧
      s2.points_objects.length = (ScatterState.mk [⟨10, ⟨.float32, [1, 2], [0, 0]⟩⟩,
        ⟨11, ⟨.float32, [1, 2], [5, 5]⟩⟩]).points_objects.length ∧
      s2.points_objects.map PointsObject.id =
        (ScatterState.mk [⟨10, ⟨.float32, [1, 2], [0, 0]⟩⟩,
          ⟨11, ⟨.float32, [1, 2], [5, 5]⟩⟩]).points_objects.map PointsObject.id ∧
      (∀ i, i ≠ 0 → s2.points_objects[i]? =
        (ScatterState.mk [⟨10, ⟨.float32, [1, 2], [0, 0]⟩⟩,
          ⟨11, ⟨.float32, [1, 2], [5, 5]⟩⟩]).points_objects[i]?) ∧
      (s2.points_objects[0]?).map (fun p => p.positions.data) =
        some ((process_positions ⟨.float64, [1, 2], [7, 8]⟩).astype .float32).data :=
  ⟨⟨by decide, by decide⟩, scatter_update_first_only
    ⟨[⟨10, ⟨.float32, [1, 2], [0, 0]⟩⟩, ⟨11, ⟨.float32, [1, 2], [5, 5]⟩⟩]⟩
    ⟨.float64, [1, 2], [7, 8]⟩ (by decide) (by decide)⟩

/-- C9: for `Image` and `Line` graphics and a data array of the stored shape,
`update_data(X)` twice in a row leaves the stored buffer equal to X after each
call, and the scene buffer keeps its identity across both calls (no
reallocation); for `Line` the stored `self.data` equals `X.astype(float32)`. -/
theorem line_image_update_idempotent (img : ImageState) (ln : LineState) (X Y : NDArray)
    ( _hX : X.shape = img.texture.shape) ( _hY : Y.shape = ln.positions.shape) :
    (Image.update_data img X).texture.data = X.data ∧
    (Image.update_data (Image.update_data img X) X).texture.data = X.data ∧
    (Image.update_data (Image.update_data img X) X).texture.id = img.texture.id ∧
    (Line.update_data ln Y).positions.data = Y.data ∧
    (Line.update_data (Line.update_data ln Y) Y).positions.data = Y.data ∧
    (Line.update_data (Line.update_data ln Y) Y).positions.id = ln.positions.id ∧
    (Line.update_data (Line.update_data ln Y) Y).data = Y.astype .float32 :=
  ⟨rfl, rfl, rfl, rfl, rfl, rfl, rfl⟩

/-- Witness for C9 at concrete image and line states. -/
theorem line_image_update_idempotent_witness :
    ((⟨.float32, [2, 2], [1, 2, 3, 4]⟩ : NDArray).shape =
      (ImageState.mk ⟨5, .float32, [2, 2], [0, 0, 0, 0]⟩).texture.shape ∧
     (⟨.float64, [2, 3], [1, 2, 3, 4, 5, 6]⟩ : NDArray).shape =
      (LineState.mk ⟨.float32, [2, 3], [0, 0, 0, 0, 0, 0]⟩
        ⟨9, .float32, [2, 3], [0, 0, 0, 0, 0, 0]⟩).positions.shape) ∧
    ((Image.update_data ⟨⟨5, .float32, [2, 2], [0, 0, 0, 0]⟩⟩
        ⟨.float32, [2, 2], [1, 2, 3, 4]⟩).texture.data = [1, 2, 3, 4] ∧
     (Image.update_data (Image.update_data ⟨⟨5, .float32, [2, 2], [0, 0, 0, 0]⟩⟩
        ⟨.float32, [2, 2], [1, 2, 3, 4]⟩) ⟨.float32, [2, 2], [1, 2, 3, 4]⟩).texture.data =
       [1, 2, 3, 4] ∧
     (Image.update_data (Image.update_data ⟨⟨5, .float32, [2, 2], [0, 0, 0, 0]⟩⟩
        ⟨.float32, [2, 2], [1, 2, 3, 4]⟩) ⟨.float32, [2, 2], [1, 2, 3, 4]⟩).texture.id = 5) :=
  ⟨⟨rfl, rfl⟩,
    (line_image_update_idempotent ⟨⟨5, .float32, [2, 2], [0, 0, 0, 0]⟩⟩
      ⟨⟨.float32, [2, 3], [0, 0, 0, 0, 0, 0]⟩, ⟨9, .float32, [2, 3], [0, 0, 0, 0, 0, 0]⟩⟩
      ⟨.float32, [2, 2], [1, 2, 3, 4]⟩ ⟨.float64, [2, 3], [1, 2, 3, 4, 5, 6]⟩ rfl rfl).1,
    (line_image_update_idempotent ⟨⟨5, .float32, [2, 2], [0, 0, 0, 0]⟩⟩
      ⟨⟨.float32, [2, 3], [0, 0, 0, 0, 0, 0]⟩, ⟨9, .float32, [2, 3], [0, 0, 0, 0, 0, 0]⟩⟩
      ⟨.float32, [2, 2], [1, 2, 3, 4]⟩ ⟨.float64, [2, 3], [1, 2, 3, 4, 5, 6]⟩ rfl rfl).2.1,
    (line_image_update_idempotent ⟨⟨5, .float32, [2, 2], [0, 0, 0, 0]⟩⟩
      ⟨⟨.float32, [2, 3], [0, 0, 0, 0, 0, 0]⟩, ⟨9, .float32, [2, 3], [0, 0, 0, 0, 0, 0]⟩⟩
      ⟨.float32, [2, 2], [1, 2, 3, 4]⟩ ⟨.float64, [2, 3], [1, 2, 3, 4, 5, 6]⟩ rfl rfl).2.2.1⟩

/-- C7: a `pre_computed` dict whose key set is not exactly
`{hist, bin_edges}`, or whose values are not all ndarrays, makes the histogram
constructor raise one of the two validation errors before any scene object is
built (the `Except.error` return carries no `HistogramState`, so construction
is atomic: on failure no scene object exists). -/
theorem histogram_precomputed_rejected (data : Option (List ℚ)) (bins : ℕ)
    (pc : List (String × PyVal)) (colors : Option NDArray) (dsf dbw : ℚ)
    (h : (pc.map Prod.fst).toFinset ≠ ({"hist", "bin_edges"} : Finset String) ∨
      ¬(∀ kv ∈ pc, kv.2.isNdarray = true)) :
    histogram_init data bins (some pc) colors dsf dbw = Except.error precomputed_keys_msg ∨
    histogram_init data bins (some pc) colors dsf dbw = Except.error precomputed_values_msg := by
  simp only [histogram_init]
  by_cases hk : (pc.map Prod.fst).toFinset = ({"hist", "bin_edges"} : Finset String)
  · rcases h with h | h
    · exact absurd hk h
    · right
      rw [if_pos hk, if_neg (fun hc => h (by simpa [List.all_eq_true] using hc))]
  · left
    rw [if_neg hk]

/-- Witness for C7: a dict with only the key `hist` (and a non-array value). -/
theorem histogram_precomputed_rejected_witness :
    ((([("hist", PyVal.pyint 3)] : List (String × PyVal)).map
        Prod.fst).toFinset ≠ ({"hist", "bin_edges"} : Finset String) ∨
      ¬(∀ kv ∈ ([("hist", PyVal.pyint 3)] : List (String × PyVal)), kv.2.isNdarray = true)) ∧
    (histogram_init none 10 (some [("hist", PyVal.pyint 3)]) none 100 1 =
        Except.error precomputed_keys_msg ∨
      histogram_init none 10 (some [("hist", PyVal.pyint 3)]) none 100 1 =
        Except.error precomputed_values_msg) :=
  ⟨Or.inl (by decide), histogram_precomputed_rejected none 10 [("hist", PyVal.pyint 3)] none 100 1
    (Or.inl (by decide))⟩

/-- C8: for a histogram built from strictly increasing bin edges (at least two
of them, with a positive drawing scale — the default is 100.0), the computed
bin-center x positions are strictly increasing and number
`len(bin_edges) - 1`. -/
theorem histogram_bin_centers (bin_edges : List ℚ) (dsf : ℚ)
    (hmono : bin_edges.Chain' (· < ·)) (hlen : 2 ≤ bin_edges.length) (hdsf : 0 < dsf) :
    (x_positions_bins bin_edges dsf).Chain' (· < ·) ∧
    (x_positions_bins bin_edges dsf).length = bin_edges.length - 1 := by
  have hptp : 0 < np_ptp bin_edges := by
    rcases bin_edges with _ | ⟨e0, rest⟩
    · simp at hlen
    rcases rest with _ | ⟨e1, rest2⟩
    · simp at hlen
    have h01 : e0 < e1 := (List.chain'_cons.mp hmono).1
    have hmin : np_min (e0 :: e1 :: rest2) ≤ e0 := foldl_min_le_init _ _
    have hmax : e1 ≤ np_max (e0 :: e1 :: rest2) :=
      le_foldl_max_of_mem (e1 :: rest2) e0 e1 (by simp)
    unfold np_ptp
    linarith
  constructor
  · unfold x_positions_bins
    apply List.Chain'.init
    unfold scaled_bin_edges
    rw [List.map_map, List.chain'_map]
    refine hmono.imp (fun a b hab => ?_)
    simp only [Function.comp]
    have h1 : a - np_min bin_edges < b - np_min bin_edges := by linarith
    have h2 : (a - np_min bin_edges) / np_ptp bin_edges <
        (b - np_min bin_edges) / np_ptp bin_edges := by
      rw [div_eq_mul_inv, div_eq_mul_inv]
      exact mul_lt_mul_of_pos_right h1 (inv_pos.mpr hptp)
    have h3 := mul_lt_mul_of_pos_right h2 hdsf
    linarith
  · unfold x_positions_bins scaled_bin_edges
    simp

/-- Witness for C8: edges `[0, 1, 2]` with the default scale 100 give centers
`[25, 75]`, strictly increasing and of length 2. -/
theorem histogram_bin_centers_witness :
    (([0, 1, 2] : List ℚ).Chain' (fun a b => a < b) ∧ 2 ≤ ([0, 1, 2] : List ℚ).length ∧
      (0 : ℚ) < 100) ∧
    ((x_positions_bins [0, 1, 2] 100).Chain' (fun a b => a < b) ∧
      (x_positions_bins [0, 1, 2] 100).length = ([0, 1, 2] : List ℚ).length - 1) :=
  ⟨⟨by norm_num [List.chain'_cons], by decide, by decide⟩,
    histogram_bin_centers [0, 1, 2] 100 (by norm_num [List.chain'_cons]) (by decide) (by decide)⟩

end Fastplotlib
